import Mathlib

/-!
Verification development for the LMS backend.

Shallow embedding of two source files:

* `internal/config/config.go`: layered configuration resolution (`Init`,
  `setFromEnv`, `parseConfigFile`, `populateDefaults`);
* `internal/service/schools.go`: the tenant service (`GetByDomain`,
  `UpdateSettings`, `ConnectFondy`, `toContactInfo`, `toPages`).

Go results `(value, error)` are pairs whose second component is an
`Option Error` (`none` is the nil error).  Calls that leave the package (the
viper library, the process environment, the cache, the repository, the payment
gateway) are operations on an explicit world state; every such call is
appended to a chronological call log, so that "is not called" is a statement
about the log.
-/

/-- Go `error` values, identified by their message. -/
abbrev Error := String

/-! ## Package config -/

namespace config

/-- Go `time.Duration`: a count of nanoseconds. -/
abbrev Duration := Int

def Second : Duration := 1000000000
def Minute : Duration := 60 * Second
def Hour : Duration := 60 * Minute

def defaultHTTPPort : String := "8000"
def defaultHttpRWTimeout : Duration := 10 * Second
def defaultHttpMaxHeaderMegabytes : Int := 1
def defaultAccessTokenTTL : Duration := 15 * Minute
def defaultRefreshTokenTTL : Duration := 24 * Hour * 30
def defaultLimiterRPS : Int := 10
def defaultLimiterBurst : Int := 2
def defaultLimiterTTL : Duration := 10 * Minute
def defaultVerificationCodeLength : Int := 8

def EnvLocal : String := "local"
def Prod : String := "prod"

/-! The `Config` tree.  Every field defaults to its Go zero value, so `{}` is
the value of `var cfg Config`. -/

structure MongoConfig where
  URI : String := ""
  User : String := ""
  Password : String := ""
  Name : String := ""
  deriving DecidableEq, Repr

structure JWTConfig where
  AccessTokenTTL : Duration := 0
  RefreshTokenTTL : Duration := 0
  SigningKey : String := ""
  deriving DecidableEq, Repr

structure AuthConfig where
  JWT : JWTConfig := {}
  PasswordSalt : String := ""
  VerificationCodeLength : Int := 0
  deriving DecidableEq, Repr

structure FileStorageConfig where
  Endpoint : String := ""
  Bucket : String := ""
  AccessKey : String := ""
  SecretKey : String := ""
  deriving DecidableEq, Repr

structure SendPulseConfig where
  ListID : String := ""
  ClientID : String := ""
  ClientSecret : String := ""
  deriving DecidableEq, Repr

structure EmailTemplates where
  Verification : String := ""
  PurchaseSuccessful : String := ""
  deriving DecidableEq, Repr

structure EmailSubjects where
  Verification : String := ""
  PurchaseSuccessful : String := ""
  deriving DecidableEq, Repr

structure EmailConfig where
  SendPulse : SendPulseConfig := {}
  Templates : EmailTemplates := {}
  Subjects : EmailSubjects := {}
  deriving DecidableEq, Repr

structure FondyConfig where
  MerchantId : String := ""
  MerchantPassword : String := ""
  deriving DecidableEq, Repr

structure PaymentConfig where
  Fondy : FondyConfig := {}
  CallbackURL : String := ""
  ResponseURL : String := ""
  deriving DecidableEq, Repr

structure HTTPConfig where
  Host : String := ""
  Port : String := ""
  ReadTimeout : Duration := 0
  WriteTimeout : Duration := 0
  MaxHeaderMegabytes : Int := 0
  deriving DecidableEq, Repr

structure LimiterConfig where
  RPS : Int := 0
  Burst : Int := 0
  TTL : Duration := 0
  deriving DecidableEq, Repr

structure SMTPConfig where
  Host : String := ""
  Port : Int := 0
  From : String := ""
  Pass : String := ""
  deriving DecidableEq, Repr

structure CloudflareConfig where
  ApiKey : String := ""
  Email : String := ""
  ZoneEmail : String := ""
  CnameTarget : String := ""
  deriving DecidableEq, Repr

structure Config where
  Environment : String := ""
  Mongo : MongoConfig := {}
  HTTP : HTTPConfig := {}
  Auth : AuthConfig := {}
  FileStorage : FileStorageConfig := {}
  Email : EmailConfig := {}
  Payment : PaymentConfig := {}
  Limiter : LimiterConfig := {}
  CacheTTL : Duration := 0
  FrontendURL : String := ""
  SMTP : SMTPConfig := {}
  Cloudflare : CloudflareConfig := {}
  deriving DecidableEq, Repr

/-- The process environment: a variable is either unset or set to a string
(possibly the empty one). -/
abbrev Environ := String → Option String

/-- Go `os.LookupEnv`: the value and whether the variable is present. -/
def LookupEnv (env : Environ) (key : String) : String × Bool :=
  match env key with
  | some v => (v, true)
  | none => ("", false)

/-- Go `os.Getenv`: the value of the variable, the empty string when it is
not present. -/
def Getenv (env : Environ) (key : String) : String :=
  (LookupEnv env key).1

/-- Go `os.Setenv`. -/
def Setenv (env : Environ) (key value : String) : Environ :=
  fun k => if k = key then some value else env k

/-- Values handed to `viper.SetDefault` by this package: untyped integer
constants and `time.Duration`s. -/
inductive Value where
  | int (n : Int)
  | duration (d : Duration)
  deriving DecidableEq, Repr

/-- The part of the viper library this package calls, over the library's
(process-wide) state `V`.  The library is an external dependency: its
operations are parameters of the embedding. -/
structure Viper (V : Type) where
  AddConfigPath : String → V → V
  SetConfigName : String → V → V
  SetDefault : String → Value → V → V
  ReadInConfig : V → V × Option Error
  MergeInConfig : V → V × Option Error

/-- Calls that change state outside the package, as recorded in the log. -/
inductive Call where
  | Setenv (key value : String)
  | SetDefault (key : String) (value : Value)
  | AddConfigPath (path : String)
  | SetConfigName (name : String)
  | ReadInConfig
  | MergeInConfig
  deriving DecidableEq, Repr

/-- State the package runs against: the viper state, the process environment
and the chronological log of calls made so far. -/
structure World (V : Type) where
  viper : V
  environ : Environ
  calls : List Call

namespace World

variable {V : Type}

def Setenv (w : World V) (key value : String) : World V :=
  { w with environ := config.Setenv w.environ key value,
           calls := w.calls ++ [Call.Setenv key value] }

def SetDefault (vp : Viper V) (w : World V) (key : String) (value : Value) : World V :=
  { w with viper := vp.SetDefault key value w.viper,
           calls := w.calls ++ [Call.SetDefault key value] }

def AddConfigPath (vp : Viper V) (w : World V) (path : String) : World V :=
  { w with viper := vp.AddConfigPath path w.viper,
           calls := w.calls ++ [Call.AddConfigPath path] }

def SetConfigName (vp : Viper V) (w : World V) (name : String) : World V :=
  { w with viper := vp.SetConfigName name w.viper,
           calls := w.calls ++ [Call.SetConfigName name] }

def ReadInConfig (vp : Viper V) (w : World V) : Option Error × World V :=
  ((vp.ReadInConfig w.viper).2,
   { w with viper := (vp.ReadInConfig w.viper).1,
            calls := w.calls ++ [Call.ReadInConfig] })

def MergeInConfig (vp : Viper V) (w : World V) : Option Error × World V :=
  ((vp.MergeInConfig w.viper).2,
   { w with viper := (vp.MergeInConfig w.viper).1,
            calls := w.calls ++ [Call.MergeInConfig] })

end World

/-- Source `populateDefaults` (config.go 198-212). -/
def populateDefaults {V : Type} (vp : Viper V) (w : World V) : World V :=
  let w :=
    if (LookupEnv w.environ "HTTP_HOST").2 then
      w.Setenv "HTTP_HOST" defaultHTTPPort
    else w
  let w := w.SetDefault vp "http.max_header_megabytes" (Value.int defaultHttpMaxHeaderMegabytes)
  let w := w.SetDefault vp "http.timeouts.read" (Value.duration defaultHttpRWTimeout)
  let w := w.SetDefault vp "http.timeouts.write" (Value.duration defaultHttpRWTimeout)
  let w := w.SetDefault vp "auth.accessTokenTTL" (Value.duration defaultAccessTokenTTL)
  let w := w.SetDefault vp "auth.refreshTokenTTL" (Value.duration defaultRefreshTokenTTL)
  let w := w.SetDefault vp "auth.verificationCodeLength" (Value.int defaultVerificationCodeLength)
  let w := w.SetDefault vp "limiter.rps" (Value.int defaultLimiterRPS)
  let w := w.SetDefault vp "limiter.burst" (Value.int defaultLimiterBurst)
  let w := w.SetDefault vp "limiter.ttl" (Value.duration defaultLimiterTTL)
  w

/-- Source `parseConfigFile` (config.go 181-196): the returned error and the
world after the call. -/
def parseConfigFile {V : Type} (vp : Viper V) (folder env : String) (w : World V) :
    Option Error × World V :=
  let w := w.AddConfigPath vp folder
  let w := w.SetConfigName vp "main"
  match w.ReadInConfig vp with
  | (some err, w) => (some err, w)
  | (none, w) =>
    if env = EnvLocal then
      (none, w)
    else
      let w := w.SetConfigName vp env
      w.MergeInConfig vp

/-- Source `setFromEnv` (config.go 145-179): every bound field is assigned
`os.Getenv` of its variable. -/
def setFromEnv (cfg : Config) (env : Environ) : Config :=
  let cfg := { cfg with Mongo := { cfg.Mongo with
    URI := Getenv env "MONGO_URI",
    User := Getenv env "MONGO_USER",
    Password := Getenv env "MONGO_PASS" } }
  let cfg := { cfg with Auth := { cfg.Auth with
    PasswordSalt := Getenv env "PASSWORD_SALT",
    JWT := { cfg.Auth.JWT with SigningKey := Getenv env "JWT_SIGNING_KEY" } } }
  let cfg := { cfg with Email := { cfg.Email with SendPulse := { cfg.Email.SendPulse with
    ClientSecret := Getenv env "SENDPULSE_SECRET",
    ClientID := Getenv env "SENDPULSE_ID",
    ListID := Getenv env "SENDPULSE_LISTID" } } }
  let cfg := { cfg with HTTP := { cfg.HTTP with Host := Getenv env "HTTP_HOST" } }
  let cfg := { cfg with Payment := { cfg.Payment with
    Fondy := { cfg.Payment.Fondy with
      MerchantId := Getenv env "FONDY_MERCHANT_ID",
      MerchantPassword := Getenv env "FONDY_MERCHANT_PASS" },
    CallbackURL := Getenv env "PAYMENT_CALLBACK_URL",
    ResponseURL := Getenv env "PAYMENT_REDIRECT_URL" } }
  let cfg := { cfg with FrontendURL := Getenv env "FRONTEND_URL" }
  let cfg := { cfg with SMTP := { cfg.SMTP with Pass := Getenv env "SMTP_PASSWORD" } }
  let cfg := { cfg with Environment := Getenv env "APP_ENV" }
  let cfg := { cfg with FileStorage := { cfg.FileStorage with
    Endpoint := Getenv env "STORAGE_ENDPOINT",
    AccessKey := Getenv env "STORAGE_ACCESS_KEY",
    SecretKey := Getenv env "STORAGE_SECRET_KEY",
    Bucket := Getenv env "STORAGE_BUCKET" } }
  let cfg := { cfg with Cloudflare := { cfg.Cloudflare with
    ApiKey := Getenv env "CLOUDFLARE_API_KEY",
    Email := Getenv env "CLOUDFLARE_EMAIL",
    ZoneEmail := Getenv env "CLOUDFLARE_ZONE_EMAIL",
    CnameTarget := Getenv env "CLOUDFLARE_CNAME_TARGET" } }
  cfg

/-- Source `Init` (config.go 131-143): the returned `(*Config, error)` pair
(`none` is nil) and the world after the call. -/
def Init {V : Type} (vp : Viper V) (configsDir : String) (w : World V) :
    (Option Config × Option Error) × World V :=
  let w := populateDefaults vp w
  match parseConfigFile vp configsDir (Getenv w.environ "APP_ENV") w with
  | (some err, w) => ((none, some err), w)
  | (none, w) =>
    let cfg : Config := {}
    let cfg := setFromEnv cfg w.environ
    ((some cfg, none), w)

/-! ### In-memory stand-in for the viper library

Used to run the embedding on concrete inputs. -/

/-- A configuration document: dotted keys with their textual values. -/
abbrev Document := List (String × String)

/-- State of the stand-in: the search paths, the configuration name, the
registered defaults, the values read from documents, and the documents that
exist, by directory and name. -/
structure MemViper where
  paths : List String := []
  name : String := "config"
  defaults : List (String × Value) := []
  values : Document := []
  files : List ((String × String) × Document) := []

/-- The document the current name designates, searched through the paths in
order. -/
def MemViper.find (v : MemViper) : Option Document :=
  v.paths.findSome? fun p => v.files.lookup (p, v.name)

/-- The stand-in operations: reading replaces the values, merging puts the
merged document in front of them, and either fails when no path holds a
document of the current name.  As in the library, `SetConfigName` with the
empty name leaves the current name in place. -/
def memViper : Viper MemViper where
  AddConfigPath := fun p v => { v with paths := v.paths ++ [p] }
  SetConfigName := fun n v => if n = "" then v else { v with name := n }
  SetDefault := fun k x v => { v with defaults := (k, x) :: v.defaults }
  ReadInConfig := fun v =>
    match v.find with
    | some doc => ({ v with values := doc }, none)
    | none => (v, some "config file not found")
  MergeInConfig := fun v =>
    match v.find with
    | some doc => ({ v with values := doc ++ v.values }, none)
    | none => (v, some "config file not found")

end config

/-! ## Types declared outside the two source files -/

namespace primitive

/-- Modelled from the spec: the tenant's unique identifier (the driver's
`primitive.ObjectID`), identified by its hexadecimal form. -/
structure ObjectID where
  hex : String
  deriving DecidableEq, Repr

/-- The zero identifier: twelve zero bytes. -/
def NilObjectID : ObjectID := ⟨"000000000000000000000000"⟩

def ObjectID.Hex (id : ObjectID) : String := id.hex

end primitive

/-- Go `context.Context`, passed through to the repository untouched. -/
abbrev Context := Nat

namespace domain

/-- Payment-gateway credential record; the fields are those the source sets
(schools.go 79-83). -/
structure Fondy where
  MerchantId : String := ""
  MerchantPassword : String := ""
  Connected : Bool := false
  deriving DecidableEq, Repr

/-- Modelled from the spec: the contact information of a tenant record
(package domain is not among the sources); one string per field of the
contact-info patch. -/
structure ContactInfo where
  BusinessName : String := ""
  RegistrationNumber : String := ""
  Address : String := ""
  Email : String := ""
  Phone : String := ""
  deriving DecidableEq, Repr

/-- Modelled from the spec: the page-content fields of a tenant record. -/
structure Pages where
  Confidential : String := ""
  ServiceAgreement : String := ""
  NewsletterConsent : String := ""
  deriving DecidableEq, Repr

/-- Modelled from the spec: display and theming fields, page contents, contact
information and the payment-gateway credentials of a tenant. -/
structure Settings where
  Color : String := ""
  Pages : Pages := {}
  ShowPaymentImages : Bool := false
  GoogleAnalyticsCode : String := ""
  LogoURL : String := ""
  ContactInfo : ContactInfo := {}
  Fondy : Fondy := {}
  deriving DecidableEq, Repr

/-- Modelled from the spec: the tenant record, identified by a unique
identifier and by its domain-name aliases.  Every field defaults to its zero
value, so `{}` is Go's `domain.School{}`. -/
structure School where
  ID : primitive.ObjectID := primitive.NilObjectID
  Name : String := ""
  Email : String := ""
  Domains : List String := []
  Settings : Settings := {}
  deriving DecidableEq, Repr

end domain

namespace repository

/-- Sparse contact-info update of the persistence contract; a field is a Go
pointer, `none` when nil.  Field names as assigned in schools.go 93-113. -/
structure UpdateSchoolSettingsContactInfo where
  BusinessName : Option String := none
  RegistrationNumber : Option String := none
  Address : Option String := none
  Email : Option String := none
  Phone : Option String := none
  deriving DecidableEq, Repr

/-- Sparse page-content update of the persistence contract (schools.go
123-135). -/
structure UpdateSchoolSettingsPages where
  Confidential : Option String := none
  ServiceAgreement : Option String := none
  NewsletterConsent : Option String := none
  deriving DecidableEq, Repr

/-- Sparse settings update handed to the repository (schools.go 50-61). -/
structure UpdateSchoolSettingsInput where
  SchoolID : primitive.ObjectID
  Name : Option String := none
  Color : Option String := none
  Domains : List String := []
  Email : Option String := none
  ContactInfo : Option UpdateSchoolSettingsContactInfo := none
  Pages : Option UpdateSchoolSettingsPages := none
  ShowPaymentImages : Option Bool := none
  GoogleAnalyticsCode : Option String := none
  LogoURL : Option String := none
  deriving DecidableEq, Repr

/-- The `repository.Schools` interface over a repository state `R`: each
method returns the state after the call and its Go result. -/
structure Schools (R : Type) where
  Create : Context → String → R → R × (primitive.ObjectID × Option Error)
  GetByDomain : Context → String → R → R × (domain.School × Option Error)
  GetById : Context → primitive.ObjectID → R → R × (domain.School × Option Error)
  UpdateSettings : Context → UpdateSchoolSettingsInput → R → R × Option Error
  SetFondyCredentials : Context → primitive.ObjectID → domain.Fondy → R → R × Option Error

end repository

namespace cache

/-- Go `interface{}` values a cache can hold: nil, a tenant record, or a
value of some other dynamic type. -/
inductive AnyValue where
  | nil
  | school (s : domain.School)
  | other (typeName : String)
  deriving DecidableEq, Repr

/-- The `cache.Cache` interface over a cache state `C`. -/
structure Cache (C : Type) where
  Set : String → AnyValue → Int → C → C × Option Error
  Get : String → C → C × (AnyValue × Option Error)

end cache

namespace payment

/-- Request for a payment link; the fields are those the source sets
(schools.go 69-74). -/
structure GeneratePaymentLinkInput where
  OrderId : String := ""
  Amount : Int := 0
  Currency : String := ""
  OrderDesc : String := ""
  deriving DecidableEq, Repr

end payment

namespace fondy

/-- Gateway client built by `fondy.NewFondyClient` from the merchant
credentials. -/
structure Client where
  merchantId : String
  merchantPassword : String
  deriving DecidableEq, Repr

def NewFondyClient (merchantId merchantPassword : String) : Client :=
  ⟨merchantId, merchantPassword⟩

end fondy

/-! ## Package service -/

namespace service

open primitive

/-- Optional contact-info group of a settings patch (service level); a field
is a Go pointer, `none` when nil. -/
structure UpdateSchoolSettingsContactInfo where
  BusinessName : Option String := none
  RegistrationNumber : Option String := none
  Address : Option String := none
  Email : Option String := none
  Phone : Option String := none
  deriving DecidableEq, Repr

/-- Optional page-content group of a settings patch (service level). -/
structure UpdateSchoolSettingsPages where
  Confidential : Option String := none
  ServiceAgreement : Option String := none
  NewsletterConsent : Option String := none
  deriving DecidableEq, Repr

/-- Settings patch received by `UpdateSettings` (fields read at schools.go
52-60). -/
structure UpdateSchoolSettingsInput where
  Name : Option String := none
  Color : Option String := none
  Domains : List String := []
  Email : Option String := none
  ContactInfo : Option UpdateSchoolSettingsContactInfo := none
  Pages : Option UpdateSchoolSettingsPages := none
  ShowPaymentImages : Option Bool := none
  GoogleAnalyticsCode : Option String := none
  LogoURL : Option String := none
  deriving DecidableEq, Repr

/-- Input of `ConnectFondy` (fields read at schools.go 65-85). -/
structure ConnectFondyInput where
  SchoolID : ObjectID
  MerchantID : String
  MerchantPassword : String
  deriving DecidableEq, Repr

/-- Calls outside the package: the generator of fresh identifiers and the
payment gateway, over their state `X`. -/
structure External (X : Type) where
  NewObjectID : X → X × ObjectID
  GeneratePaymentLink :
    fondy.Client → payment.GeneratePaymentLinkInput → X → X × (String × Option Error)

/-- Calls that leave the package, as recorded in the log. -/
inductive Call where
  | cacheGet (key : String)
  | cacheSet (key : String) (value : cache.AnyValue) (ttl : Int)
  | repoCreate (ctx : Context) (name : String)
  | repoGetByDomain (ctx : Context) (domainName : String)
  | repoGetById (ctx : Context) (id : ObjectID)
  | repoUpdateSettings (ctx : Context) (inp : repository.UpdateSchoolSettingsInput)
  | repoSetFondyCredentials (ctx : Context) (id : ObjectID) (creds : domain.Fondy)
  | newObjectID
  | generatePaymentLink (client : fondy.Client) (inp : payment.GeneratePaymentLinkInput)
  deriving DecidableEq, Repr

/-- State the service runs against: cache, repository, the rest of the
outside world, and the chronological log of calls made so far. -/
structure World (C R X : Type) where
  cache : C
  repo : R
  ext : X
  calls : List Call

/-- How a Go call ends: it returns, or it panics. -/
inductive Outcome (α : Type) where
  | returned (a : α)
  | panicked (msg : String)
  deriving DecidableEq, Repr

namespace World

variable {C R X : Type}

def cacheGet (c : cache.Cache C) (w : World C R X) (key : String) :
    (cache.AnyValue × Option Error) × World C R X :=
  ((c.Get key w.cache).2,
   { w with cache := (c.Get key w.cache).1, calls := w.calls ++ [Call.cacheGet key] })

def cacheSet (c : cache.Cache C) (w : World C R X) (key : String) (value : cache.AnyValue)
    (ttl : Int) : Option Error × World C R X :=
  ((c.Set key value ttl w.cache).2,
   { w with cache := (c.Set key value ttl w.cache).1,
            calls := w.calls ++ [Call.cacheSet key value ttl] })

def repoCreate (r : repository.Schools R) (w : World C R X) (ctx : Context) (name : String) :
    (ObjectID × Option Error) × World C R X :=
  ((r.Create ctx name w.repo).2,
   { w with repo := (r.Create ctx name w.repo).1,
            calls := w.calls ++ [Call.repoCreate ctx name] })

def repoGetByDomain (r : repository.Schools R) (w : World C R X) (ctx : Context)
    (domainName : String) : (domain.School × Option Error) × World C R X :=
  ((r.GetByDomain ctx domainName w.repo).2,
   { w with repo := (r.GetByDomain ctx domainName w.repo).1,
            calls := w.calls ++ [Call.repoGetByDomain ctx domainName] })

def repoGetById (r : repository.Schools R) (w : World C R X) (ctx : Context) (id : ObjectID) :
    (domain.School × Option Error) × World C R X :=
  ((r.GetById ctx id w.repo).2,
   { w with repo := (r.GetById ctx id w.repo).1,
            calls := w.calls ++ [Call.repoGetById ctx id] })

def repoUpdateSettings (r : repository.Schools R) (w : World C R X) (ctx : Context)
    (inp : repository.UpdateSchoolSettingsInput) : Option Error × World C R X :=
  ((r.UpdateSettings ctx inp w.repo).2,
   { w with repo := (r.UpdateSettings ctx inp w.repo).1,
            calls := w.calls ++ [Call.repoUpdateSettings ctx inp] })

def repoSetFondyCredentials (r : repository.Schools R) (w : World C R X) (ctx : Context)
    (id : ObjectID) (creds : domain.Fondy) : Option Error × World C R X :=
  ((r.SetFondyCredentials ctx id creds w.repo).2,
   { w with repo := (r.SetFondyCredentials ctx id creds w.repo).1,
            calls := w.calls ++ [Call.repoSetFondyCredentials ctx id creds] })

def newObjectID (x : External X) (w : World C R X) : ObjectID × World C R X :=
  ((x.NewObjectID w.ext).2,
   { w with ext := (x.NewObjectID w.ext).1, calls := w.calls ++ [Call.newObjectID] })

def generatePaymentLink (x : External X) (w : World C R X) (client : fondy.Client)
    (inp : payment.GeneratePaymentLinkInput) : (String × Option Error) × World C R X :=
  ((x.GeneratePaymentLink client inp w.ext).2,
   { w with ext := (x.GeneratePaymentLink client inp w.ext).1,
            calls := w.calls ++ [Call.generatePaymentLink client inp] })

end World

/-- Source `SchoolsService` (schools.go 16-20). -/
structure SchoolsService (C R : Type) where
  repo : repository.Schools R
  cache : cache.Cache C
  ttl : Int

/-- Source `NewSchoolsService` (schools.go 22-24). -/
def NewSchoolsService {C R : Type} (repo : repository.Schools R) (cache : cache.Cache C)
    (ttl : Int) : SchoolsService C R :=
  { repo := repo, cache := cache, ttl := ttl }

variable {C R X : Type}

/-- Source `SchoolsService.Create` (schools.go 26-28). -/
def SchoolsService.Create (s : SchoolsService C R) (ctx : Context) (name : String)
    (w : World C R X) : (ObjectID × Option Error) × World C R X :=
  w.repoCreate s.repo ctx name

/-- Source `SchoolsService.GetByDomain` (schools.go 30-43).  The type
assertion `value.(domain.School)` panics on a cached value of another dynamic
type. -/
def SchoolsService.GetByDomain (s : SchoolsService C R) (ctx : Context) (domainName : String)
    (w : World C R X) : Outcome (domain.School × Option Error) × World C R X :=
  match w.cacheGet s.cache domainName with
  | ((value, none), w) =>
    match value with
    | cache.AnyValue.school school => (Outcome.returned (school, none), w)
    | cache.AnyValue.nil =>
      (Outcome.panicked "interface conversion: interface \x7b\x7d is nil, not domain.School", w)
    | cache.AnyValue.other typeName =>
      (Outcome.panicked
        ("interface conversion: interface \x7b\x7d is " ++ typeName ++ ", not domain.School"), w)
  | ((_, some _), w) =>
    match w.repoGetByDomain s.repo ctx domainName with
    | ((_, some err), w) => (Outcome.returned ({}, some err), w)
    | ((school, none), w) =>
      match w.cacheSet s.cache domainName (cache.AnyValue.school school) s.ttl with
      | (err, w) => (Outcome.returned (school, err), w)

/-- Source `SchoolsService.GetById` (schools.go 45-47). -/
def SchoolsService.GetById (s : SchoolsService C R) (ctx : Context) (id : ObjectID)
    (w : World C R X) : (domain.School × Option Error) × World C R X :=
  w.repoGetById s.repo ctx id

/-- Source `toContactInfo` (schools.go 88-116). -/
def toContactInfo (inp : Option UpdateSchoolSettingsContactInfo) :
    Option repository.UpdateSchoolSettingsContactInfo :=
  match inp with
  | none => none
  | some inp =>
    let contactInfo : repository.UpdateSchoolSettingsContactInfo := {}
    let contactInfo :=
      if inp.Address ≠ none then { contactInfo with Address := inp.Address } else contactInfo
    let contactInfo :=
      if inp.BusinessName ≠ none then { contactInfo with BusinessName := inp.BusinessName }
      else contactInfo
    let contactInfo :=
      if inp.Email ≠ none then { contactInfo with Email := inp.Email } else contactInfo
    let contactInfo :=
      if inp.Phone ≠ none then { contactInfo with Phone := inp.Phone } else contactInfo
    let contactInfo :=
      if inp.RegistrationNumber ≠ none then
        { contactInfo with RegistrationNumber := inp.RegistrationNumber }
      else contactInfo
    some contactInfo

/-- Source `toPages` (schools.go 118-138). -/
def toPages (inp : Option UpdateSchoolSettingsPages) :
    Option repository.UpdateSchoolSettingsPages :=
  match inp with
  | none => none
  | some inp =>
    let pages : repository.UpdateSchoolSettingsPages := {}
    let pages :=
      if inp.Confidential ≠ none then { pages with Confidential := inp.Confidential } else pages
    let pages :=
      if inp.NewsletterConsent ≠ none then
        { pages with NewsletterConsent := inp.NewsletterConsent }
      else pages
    let pages :=
      if inp.ServiceAgreement ≠ none then
        { pages with ServiceAgreement := inp.ServiceAgreement }
      else pages
    some pages

/-- The sparse update `UpdateSettings` builds (schools.go 50-61). -/
def toRepositoryInput (schoolId : ObjectID) (inp : UpdateSchoolSettingsInput) :
    repository.UpdateSchoolSettingsInput :=
  { SchoolID := schoolId,
    Name := inp.Name,
    Color := inp.Color,
    Domains := inp.Domains,
    Email := inp.Email,
    ContactInfo := toContactInfo inp.ContactInfo,
    Pages := toPages inp.Pages,
    ShowPaymentImages := inp.ShowPaymentImages,
    GoogleAnalyticsCode := inp.GoogleAnalyticsCode,
    LogoURL := inp.LogoURL }

/-- Source `SchoolsService.UpdateSettings` (schools.go 49-62). -/
def SchoolsService.UpdateSettings (s : SchoolsService C R) (ctx : Context) (schoolId : ObjectID)
    (inp : UpdateSchoolSettingsInput) (w : World C R X) : Option Error × World C R X :=
  w.repoUpdateSettings s.repo ctx (toRepositoryInput schoolId inp)

/-- Source `SchoolsService.ConnectFondy` (schools.go 64-86). -/
def SchoolsService.ConnectFondy (s : SchoolsService C R) (x : External X) (ctx : Context)
    (input : ConnectFondyInput) (w : World C R X) : Option Error × World C R X :=
  let client := fondy.NewFondyClient input.MerchantID input.MerchantPassword
  match w.newObjectID x with
  | (id, w) =>
    match w.generatePaymentLink x client
        { OrderId := id.Hex,
          Amount := 1000,
          Currency := "USD",
          OrderDesc := "CREATLY - TESTING FONDY CREDENTIALS" } with
    | ((_, some err), w) => (some err, w)
    | ((_, none), w) =>
      let creds : domain.Fondy :=
        { MerchantPassword := input.MerchantPassword,
          MerchantId := input.MerchantID,
          Connected := true }
      w.repoSetFondyCredentials s.repo ctx input.SchoolID creds

end service

/-! ## In-memory stand-ins for the interfaces

Used to run the service on concrete inputs.  They keep no clock: an entry
stays in the cache until it is overwritten. -/

namespace standin

open primitive

/-- Cache stand-in: the most recent entry for a key is found first. -/
abbrev MemCache := List (String × cache.AnyValue)

def memCache : cache.Cache MemCache where
  Set := fun key value _ttl c => ((key, value) :: c, none)
  Get := fun key c =>
    match c.lookup key with
    | some v => (c, (v, none))
    | none => (c, (cache.AnyValue.nil, some "item not found"))

/-- Cache stand-in that is unavailable: every lookup misses and every write
fails. -/
def downCache : cache.Cache MemCache where
  Set := fun _ _ _ c => (c, some "cache unavailable")
  Get := fun _ c => (c, (cache.AnyValue.nil, some "cache unavailable"))

/-- Modelled from the spec: the persistence contract applies a sparse
contact-info update as a partial-field update (set fields are written, unset
fields keep the persisted value, an absent group writes nothing). -/
def applyContactInfo (p : Option repository.UpdateSchoolSettingsContactInfo)
    (c : domain.ContactInfo) : domain.ContactInfo :=
  match p with
  | none => c
  | some p =>
    { BusinessName := p.BusinessName.getD c.BusinessName,
      RegistrationNumber := p.RegistrationNumber.getD c.RegistrationNumber,
      Address := p.Address.getD c.Address,
      Email := p.Email.getD c.Email,
      Phone := p.Phone.getD c.Phone }

/-- Modelled from the spec: partial-field update of the page contents. -/
def applyPages (p : Option repository.UpdateSchoolSettingsPages) (c : domain.Pages) :
    domain.Pages :=
  match p with
  | none => c
  | some p =>
    { Confidential := p.Confidential.getD c.Confidential,
      ServiceAgreement := p.ServiceAgreement.getD c.ServiceAgreement,
      NewsletterConsent := p.NewsletterConsent.getD c.NewsletterConsent }

/-- Modelled from the spec: partial-field update of a tenant record. -/
def applySettings (inp : repository.UpdateSchoolSettingsInput) (s : domain.School) :
    domain.School :=
  { s with
    Name := inp.Name.getD s.Name,
    Email := inp.Email.getD s.Email,
    Domains := if inp.Domains = [] then s.Domains else inp.Domains,
    Settings :=
      { s.Settings with
        Color := inp.Color.getD s.Settings.Color,
        Pages := applyPages inp.Pages s.Settings.Pages,
        ShowPaymentImages := inp.ShowPaymentImages.getD s.Settings.ShowPaymentImages,
        GoogleAnalyticsCode := inp.GoogleAnalyticsCode.getD s.Settings.GoogleAnalyticsCode,
        LogoURL := inp.LogoURL.getD s.Settings.LogoURL,
        ContactInfo := applyContactInfo inp.ContactInfo s.Settings.ContactInfo } }

/-- Repository stand-in: the persisted tenant records. -/
abbrev MemRepo := List domain.School

def memRepo : repository.Schools MemRepo where
  Create := fun _ name r =>
    (r ++ [{ ID := ⟨name⟩, Name := name }], (⟨name⟩, none))
  GetByDomain := fun _ domainName r =>
    match r.find? fun s => decide (domainName ∈ s.Domains) with
    | some s => (r, (s, none))
    | none => (r, ({}, some "school not found"))
  GetById := fun _ id r =>
    match r.find? fun s => decide (s.ID = id) with
    | some s => (r, (s, none))
    | none => (r, ({}, some "school not found"))
  UpdateSettings := fun _ inp r =>
    (r.map fun s => if s.ID = inp.SchoolID then applySettings inp s else s, none)
  SetFondyCredentials := fun _ id creds r =>
    (r.map fun s =>
      if s.ID = id then { s with Settings := { s.Settings with Fondy := creds } } else s, none)

/-- Gateway stand-in: the identifiers still to be handed out and the merchant
credentials the gateway accepts. -/
structure MemGateway where
  ids : List ObjectID := []
  accepted : List (String × String) := []
  deriving DecidableEq, Repr

def memGateway : service.External MemGateway where
  NewObjectID := fun x => ({ x with ids := x.ids.tail }, x.ids.headD NilObjectID)
  GeneratePaymentLink := fun client inp x =>
    if (client.merchantId, client.merchantPassword) ∈ x.accepted then
      (x, ("https://pay.example/" ++ inp.OrderId, none))
    else
      (x, ("", some "invalid merchant credentials"))

end standin

/-! ## Concrete inputs: package config -/

namespace config

/-- A configuration directory `configs` holding a base document `main` and an
overlay `prod`. -/
def exampleViper : MemViper :=
  { files :=
      [(("configs", "main"), [("http.port", "8080"), ("mongo.databaseName", "lms")]),
       (("configs", "prod"), [("http.port", "443")])] }

/-- A process started with `APP_ENV=local` and no other variable. -/
def localWorld : World MemViper :=
  { viper := exampleViper,
    environ := fun k => if k = "APP_ENV" then some "local" else none,
    calls := [] }

/-- A process started with `APP_ENV=local` and `HTTP_HOST=0.0.0.0`. -/
def hostWorld : World MemViper :=
  { viper := exampleViper,
    environ := fun k =>
      if k = "APP_ENV" then some "local" else if k = "HTTP_HOST" then some "0.0.0.0" else none,
    calls := [] }

/-- A process started with `APP_ENV=stage`, for which `configs` holds no
overlay. -/
def stageWorld : World MemViper :=
  { viper := exampleViper,
    environ := fun k => if k = "APP_ENV" then some "stage" else none,
    calls := [] }

/-- A `Config` whose Mongo URI is already filled in. -/
def filledConfig : Config := { Mongo := { URI := "mongodb://db:27017" } }

/-- The environment in which no variable is set. -/
def emptyEnviron : Environ := fun _ => none

end config

/-! ## Concrete inputs: package service -/

namespace standin

open primitive

/-- A persisted tenant with alias school.example.com, contact email a@x.com
and phone 555. -/
def exampleSchool : domain.School :=
  { ID := ⟨"5f8d0d55b54764421b7156c3"⟩,
    Name := "Example School",
    Domains := ["school.example.com"],
    Settings := { ContactInfo := { Email := "a@x.com", Phone := "555" } } }

/-- A world with an empty cache, the example tenant persisted, and a gateway
that accepts one merchant. -/
def coldWorld : service.World MemCache MemRepo MemGateway :=
  { cache := [],
    repo := [exampleSchool],
    ext := { ids := [⟨"64b7f1a2c3d4e5f601234567"⟩], accepted := [("merchant-1", "secret-1")] },
    calls := [] }

/-- The same world with the tenant already cached under its alias. -/
def warmWorld : service.World MemCache MemRepo MemGateway :=
  { coldWorld with cache := [("school.example.com", cache.AnyValue.school exampleSchool)] }

/-- The same world with a string cached under the tenant's alias. -/
def mistypedWorld : service.World MemCache MemRepo MemGateway :=
  { coldWorld with cache := [("school.example.com", cache.AnyValue.other "string")] }

/-- The service over the in-memory repository and cache, with a TTL of one
hour. -/
def exampleService : service.SchoolsService MemCache MemRepo :=
  service.NewSchoolsService memRepo memCache 3600

/-- The service over the in-memory repository and the unavailable cache. -/
def degradedService : service.SchoolsService MemCache MemRepo :=
  service.NewSchoolsService memRepo downCache 3600

/-- The patch that sets only the contact phone. -/
def phonePatch : service.UpdateSchoolSettingsInput :=
  { ContactInfo := some { Phone := some "999" } }

/-- The patch without a contact-info group; it sets only the colour. -/
def colorPatch : service.UpdateSchoolSettingsInput :=
  { Color := some "#336699" }

end standin

/-! ## Theorems: package config -/

namespace config

variable {V : Type}

/-- The environment after `populateDefaults`: `HTTP_HOST` is replaced by the
default port when it was present, nothing else changes. -/
theorem populateDefaults_environ (vp : Viper V) (w : World V) :
    (populateDefaults vp w).environ =
      if (w.environ "HTTP_HOST").isSome then Setenv w.environ "HTTP_HOST" defaultHTTPPort
      else w.environ := by
  unfold populateDefaults LookupEnv
  cases h : w.environ "HTTP_HOST" <;> simp [World.SetDefault, World.Setenv]

/-- The variable `APP_ENV` reads the same before and after `populateDefaults`. -/
theorem populateDefaults_Getenv_APP_ENV (vp : Viper V) (w : World V) :
    Getenv (populateDefaults vp w).environ "APP_ENV" = Getenv w.environ "APP_ENV" := by
  rw [populateDefaults_environ]
  cases h : w.environ "HTTP_HOST" <;> simp [Getenv, LookupEnv, Setenv]

/-- The function `parseConfigFile` spelled out by the outcome of the base read. -/
theorem parseConfigFile_eq (vp : Viper V) (folder env : String) (w : World V) :
    parseConfigFile vp folder env w =
      if (((w.AddConfigPath vp folder).SetConfigName vp "main").ReadInConfig vp).1 = none then
        if env = EnvLocal then
          (none, (((w.AddConfigPath vp folder).SetConfigName vp "main").ReadInConfig vp).2)
        else
          (((((w.AddConfigPath vp folder).SetConfigName vp "main").ReadInConfig vp).2).SetConfigName
            vp env).MergeInConfig vp
      else ((w.AddConfigPath vp folder).SetConfigName vp "main").ReadInConfig vp := by
  unfold parseConfigFile
  simp only []
  generalize ((w.AddConfigPath vp folder).SetConfigName vp "main").ReadInConfig vp = r
  obtain ⟨e, w1⟩ := r
  cases e <;> simp

/-- The process environment is not touched by `parseConfigFile`. -/
theorem parseConfigFile_environ (vp : Viper V) (folder env : String) (w : World V) :
    (parseConfigFile vp folder env w).2.environ = w.environ := by
  rw [parseConfigFile_eq]
  split_ifs <;>
    simp [World.ReadInConfig, World.MergeInConfig, World.SetConfigName, World.AddConfigPath]

/-- The function `Init` spelled out by the outcome of `parseConfigFile`. -/
theorem Init_eq (vp : Viper V) (configsDir : String) (w : World V) :
    Init vp configsDir w =
      match (parseConfigFile vp configsDir (Getenv w.environ "APP_ENV")
          (populateDefaults vp w)).1 with
      | some err =>
        ((none, some err),
          (parseConfigFile vp configsDir (Getenv w.environ "APP_ENV") (populateDefaults vp w)).2)
      | none =>
        ((some (setFromEnv {} (populateDefaults vp w).environ), none),
          (parseConfigFile vp configsDir (Getenv w.environ "APP_ENV") (populateDefaults vp w)).2) := by
  unfold Init
  simp only [populateDefaults_Getenv_APP_ENV]
  have henv := parseConfigFile_environ vp configsDir (Getenv w.environ "APP_ENV")
    (populateDefaults vp w)
  revert henv
  generalize parseConfigFile vp configsDir (Getenv w.environ "APP_ENV") (populateDefaults vp w) = r
  obtain ⟨e, w1⟩ := r
  intro henv
  cases e
  · simp only at henv ⊢
    rw [henv]
  · simp

/-- A snapshot returned by `Init` is the zero-valued `Config` with the
environment layer applied, and nothing else. -/
theorem Init_snapshot (vp : Viper V) (configsDir : String) (w : World V) (cfg : Config)
    (h : (Init vp configsDir w).1.1 = some cfg) :
    cfg = setFromEnv {} (populateDefaults vp w).environ := by
  rw [Init_eq] at h
  split at h
  · simp at h
  · simpa using h.symm

/-- Supporting fact for C2: every binding other than `HTTP_HOST` reaches the
snapshot of a successful `Init` as `os.Getenv` of its variable in the
environment `Init` was started in. -/
theorem Init_other_bindings (vp : Viper V) (configsDir : String) (w : World V) (cfg : Config)
    (h : (Init vp configsDir w).1.1 = some cfg) :
    cfg.Mongo.URI = Getenv w.environ "MONGO_URI" ∧
    cfg.Mongo.User = Getenv w.environ "MONGO_USER" ∧
    cfg.Mongo.Password = Getenv w.environ "MONGO_PASS" ∧
    cfg.Auth.PasswordSalt = Getenv w.environ "PASSWORD_SALT" ∧
    cfg.Auth.JWT.SigningKey = Getenv w.environ "JWT_SIGNING_KEY" ∧
    cfg.Email.SendPulse.ClientSecret = Getenv w.environ "SENDPULSE_SECRET" ∧
    cfg.Email.SendPulse.ClientID = Getenv w.environ "SENDPULSE_ID" ∧
    cfg.Email.SendPulse.ListID = Getenv w.environ "SENDPULSE_LISTID" ∧
    cfg.Payment.Fondy.MerchantId = Getenv w.environ "FONDY_MERCHANT_ID" ∧
    cfg.Payment.Fondy.MerchantPassword = Getenv w.environ "FONDY_MERCHANT_PASS" ∧
    cfg.Payment.CallbackURL = Getenv w.environ "PAYMENT_CALLBACK_URL" ∧
    cfg.Payment.ResponseURL = Getenv w.environ "PAYMENT_REDIRECT_URL" ∧
    cfg.FrontendURL = Getenv w.environ "FRONTEND_URL" ∧
    cfg.SMTP.Pass = Getenv w.environ "SMTP_PASSWORD" ∧
    cfg.Environment = Getenv w.environ "APP_ENV" ∧
    cfg.FileStorage.Endpoint = Getenv w.environ "STORAGE_ENDPOINT" ∧
    cfg.FileStorage.AccessKey = Getenv w.environ "STORAGE_ACCESS_KEY" ∧
    cfg.FileStorage.SecretKey = Getenv w.environ "STORAGE_SECRET_KEY" ∧
    cfg.FileStorage.Bucket = Getenv w.environ "STORAGE_BUCKET" := by
  have hc := Init_snapshot vp configsDir w cfg h
  rw [populateDefaults_environ] at hc
  subst hc
  cases hh : w.environ "HTTP_HOST" <;> simp [setFromEnv, Getenv, LookupEnv, Setenv]

/-- C1, as the code behaves: a snapshot returned by `Init` holds none of the
default-table values and none of the values of the configuration documents.
Whatever the defaults registered with the library and whatever the base
document and the overlay contain, the rate-limiter settings, the token
lifetimes, the verification-code length, the HTTP timeouts, header limit and
port, and the Mongo database name of the snapshot are the Go zero values (the
claim expects 10, 2, 8 and the documents' values there). -/
theorem Init_snapshot_lacks_defaults_and_documents (vp : Viper V) (configsDir : String)
    (w : World V) (cfg : Config) (h : (Init vp configsDir w).1.1 = some cfg) :
    cfg.Limiter.RPS = 0 ∧ cfg.Limiter.Burst = 0 ∧ cfg.Limiter.TTL = 0 ∧
    cfg.Auth.VerificationCodeLength = 0 ∧
    cfg.Auth.JWT.AccessTokenTTL = 0 ∧ cfg.Auth.JWT.RefreshTokenTTL = 0 ∧
    cfg.HTTP.ReadTimeout = 0 ∧ cfg.HTTP.WriteTimeout = 0 ∧ cfg.HTTP.MaxHeaderMegabytes = 0 ∧
    cfg.HTTP.Port = "" ∧ cfg.Mongo.Name = "" := by
  have hc := Init_snapshot vp configsDir w cfg h
  subst hc
  simp [setFromEnv]

/-- Witness for C1: with `APP_ENV=local` and a base document that sets the HTTP
port to 8080 and the database name to lms, `Init` succeeds, the library holds
the default 10 for `limiter.rps` and the document's 8080 for `http.port`, and
the snapshot has 0 and the empty string there. -/
theorem Init_snapshot_lacks_defaults_and_documents_witness :
    (Init memViper "configs" localWorld).1.2 = none ∧
    (Init memViper "configs" localWorld).2.viper.defaults.lookup "limiter.rps"
      = some (Value.int 10) ∧
    (Init memViper "configs" localWorld).2.viper.values.lookup "http.port" = some "8080" ∧
    ∃ cfg, (Init memViper "configs" localWorld).1.1 = some cfg ∧
      cfg.Limiter.RPS = 0 ∧ cfg.Limiter.Burst = 0 ∧ cfg.Auth.VerificationCodeLength = 0 ∧
      cfg.HTTP.Port = "" ∧ cfg.Mongo.Name = "" :=
  ⟨by decide, by decide, by decide, setFromEnv {} localWorld.environ, by rfl,
    (Init_snapshot_lacks_defaults_and_documents memViper "configs" localWorld _ (by rfl)).1,
    (Init_snapshot_lacks_defaults_and_documents memViper "configs" localWorld _ (by rfl)).2.1,
    (Init_snapshot_lacks_defaults_and_documents memViper "configs" localWorld _
      (by rfl)).2.2.2.1,
    (Init_snapshot_lacks_defaults_and_documents memViper "configs" localWorld _
      (by rfl)).2.2.2.2.2.2.2.2.2.1,
    (Init_snapshot_lacks_defaults_and_documents memViper "configs" localWorld _
      (by rfl)).2.2.2.2.2.2.2.2.2.2⟩

/-- C2, as the code behaves for `HTTP_HOST`: when `HTTP_HOST` is set, to any
value, before `Init` is called, the snapshot of a successful `Init` has
`HTTP.Host` equal to the default port "8000" (the claim expects the value of
the variable). -/
theorem Init_HTTP_HOST_replaced_by_default_port (vp : Viper V) (configsDir : String)
    (w : World V) (v : String) (cfg : Config)
    (hset : w.environ "HTTP_HOST" = some v)
    (h : (Init vp configsDir w).1.1 = some cfg) :
    cfg.HTTP.Host = "8000" := by
  have hc := Init_snapshot vp configsDir w cfg h
  rw [populateDefaults_environ, hset] at hc
  subst hc
  simp [setFromEnv, Getenv, LookupEnv, Setenv, defaultHTTPPort]

/-- Witness for C2: with `HTTP_HOST=0.0.0.0`, `Init` succeeds and the
snapshot's `HTTP.Host` is "8000". -/
theorem Init_HTTP_HOST_replaced_by_default_port_witness :
    hostWorld.environ "HTTP_HOST" = some "0.0.0.0" ∧
    ∃ cfg, (Init memViper "configs" hostWorld).1 = (some cfg, none) ∧
      cfg.HTTP.Host = "8000" ∧ cfg.HTTP.Host ≠ "0.0.0.0" :=
  ⟨by decide, setFromEnv {} (populateDefaults memViper hostWorld).environ, by rfl,
    Init_HTTP_HOST_replaced_by_default_port memViper "configs" hostWorld "0.0.0.0" _
      (by decide) (by rfl),
    by decide⟩

/-- C3 as stated fails: `MONGO_URI` is not set, the Mongo URI of the `Config`
is "mongodb://db:27017" before `setFromEnv` and the empty string after it. -/
theorem setFromEnv_clears_unset_binding :
    emptyEnviron "MONGO_URI" = none ∧
    filledConfig.Mongo.URI = "mongodb://db:27017" ∧
    (setFromEnv filledConfig emptyEnviron).Mongo.URI = "" ∧
    (setFromEnv filledConfig emptyEnviron).Mongo.URI ≠ filledConfig.Mongo.URI := by
  decide

/-- C3, amended: `setFromEnv` assigns every bound field `os.Getenv` of its
variable, whatever the field held before: the value of the variable when it is
set (the empty string included) and the empty string when it is not set.  The
fields without a binding keep the value they had. -/
theorem setFromEnv_assigns_Getenv (cfg : Config) (env : Environ) :
    ((∀ k, env k = none → Getenv env k = "") ∧ (∀ k v, env k = some v → Getenv env k = v)) ∧
    ((setFromEnv cfg env).Mongo.URI = Getenv env "MONGO_URI" ∧
     (setFromEnv cfg env).Mongo.User = Getenv env "MONGO_USER" ∧
     (setFromEnv cfg env).Mongo.Password = Getenv env "MONGO_PASS" ∧
     (setFromEnv cfg env).Auth.PasswordSalt = Getenv env "PASSWORD_SALT" ∧
     (setFromEnv cfg env).Auth.JWT.SigningKey = Getenv env "JWT_SIGNING_KEY" ∧
     (setFromEnv cfg env).Email.SendPulse.ClientSecret = Getenv env "SENDPULSE_SECRET" ∧
     (setFromEnv cfg env).Email.SendPulse.ClientID = Getenv env "SENDPULSE_ID" ∧
     (setFromEnv cfg env).Email.SendPulse.ListID = Getenv env "SENDPULSE_LISTID" ∧
     (setFromEnv cfg env).HTTP.Host = Getenv env "HTTP_HOST" ∧
     (setFromEnv cfg env).Payment.Fondy.MerchantId = Getenv env "FONDY_MERCHANT_ID" ∧
     (setFromEnv cfg env).Payment.Fondy.MerchantPassword = Getenv env "FONDY_MERCHANT_PASS" ∧
     (setFromEnv cfg env).Payment.CallbackURL = Getenv env "PAYMENT_CALLBACK_URL" ∧
     (setFromEnv cfg env).Payment.ResponseURL = Getenv env "PAYMENT_REDIRECT_URL" ∧
     (setFromEnv cfg env).FrontendURL = Getenv env "FRONTEND_URL" ∧
     (setFromEnv cfg env).SMTP.Pass = Getenv env "SMTP_PASSWORD" ∧
     (setFromEnv cfg env).Environment = Getenv env "APP_ENV" ∧
     (setFromEnv cfg env).FileStorage.Endpoint = Getenv env "STORAGE_ENDPOINT" ∧
     (setFromEnv cfg env).FileStorage.AccessKey = Getenv env "STORAGE_ACCESS_KEY" ∧
     (setFromEnv cfg env).FileStorage.SecretKey = Getenv env "STORAGE_SECRET_KEY" ∧
     (setFromEnv cfg env).FileStorage.Bucket = Getenv env "STORAGE_BUCKET" ∧
     (setFromEnv cfg env).Cloudflare.ApiKey = Getenv env "CLOUDFLARE_API_KEY" ∧
     (setFromEnv cfg env).Cloudflare.Email = Getenv env "CLOUDFLARE_EMAIL" ∧
     (setFromEnv cfg env).Cloudflare.ZoneEmail = Getenv env "CLOUDFLARE_ZONE_EMAIL" ∧
     (setFromEnv cfg env).Cloudflare.CnameTarget = Getenv env "CLOUDFLARE_CNAME_TARGET") ∧
    ((setFromEnv cfg env).Mongo.Name = cfg.Mongo.Name ∧
     (setFromEnv cfg env).HTTP.Port = cfg.HTTP.Port ∧
     (setFromEnv cfg env).HTTP.ReadTimeout = cfg.HTTP.ReadTimeout ∧
     (setFromEnv cfg env).HTTP.WriteTimeout = cfg.HTTP.WriteTimeout ∧
     (setFromEnv cfg env).HTTP.MaxHeaderMegabytes = cfg.HTTP.MaxHeaderMegabytes ∧
     (setFromEnv cfg env).Auth.JWT.AccessTokenTTL = cfg.Auth.JWT.AccessTokenTTL ∧
     (setFromEnv cfg env).Auth.JWT.RefreshTokenTTL = cfg.Auth.JWT.RefreshTokenTTL ∧
     (setFromEnv cfg env).Auth.VerificationCodeLength = cfg.Auth.VerificationCodeLength ∧
     (setFromEnv cfg env).Email.Templates = cfg.Email.Templates ∧
     (setFromEnv cfg env).Email.Subjects = cfg.Email.Subjects ∧
     (setFromEnv cfg env).Limiter = cfg.Limiter ∧
     (setFromEnv cfg env).CacheTTL = cfg.CacheTTL ∧
     (setFromEnv cfg env).SMTP.Host = cfg.SMTP.Host ∧
     (setFromEnv cfg env).SMTP.Port = cfg.SMTP.Port ∧
     (setFromEnv cfg env).SMTP.From = cfg.SMTP.From) := by
  refine ⟨⟨?_, ?_⟩, ?_, ?_⟩
  · intro k hk
    simp [Getenv, LookupEnv, hk]
  · intro k v hk
    simp [Getenv, LookupEnv, hk]
  · simp [setFromEnv]
  · simp [setFromEnv]

/-- C4: with the environment name "local", `parseConfigFile` is the base read
and nothing more.  Its error and the library state it leaves are exactly those
of `ReadInConfig` after `AddConfigPath folder` and `SetConfigName "main"`, and
these three calls are all it logs: no second `SetConfigName`, no
`MergeInConfig`.  The outcome of a local resolution is therefore a function of
the base read alone: replacing the library's `MergeInConfig` by any other
operation leaves the result as it is. -/
theorem parseConfigFile_local_reads_base_only (vp : Viper V) (folder : String) (w : World V) :
    parseConfigFile vp folder "local" w =
      ((w.AddConfigPath vp folder).SetConfigName vp "main").ReadInConfig vp ∧
    (parseConfigFile vp folder "local" w).1 =
      (vp.ReadInConfig (vp.SetConfigName "main" (vp.AddConfigPath folder w.viper))).2 ∧
    (parseConfigFile vp folder "local" w).2.viper =
      (vp.ReadInConfig (vp.SetConfigName "main" (vp.AddConfigPath folder w.viper))).1 ∧
    (parseConfigFile vp folder "local" w).2.calls =
      w.calls ++ [Call.AddConfigPath folder, Call.SetConfigName "main", Call.ReadInConfig] ∧
    Call.MergeInConfig ∉
      [Call.AddConfigPath folder, Call.SetConfigName "main", Call.ReadInConfig] ∧
    (∀ merge : V → V × Option Error,
      parseConfigFile { vp with MergeInConfig := merge } folder "local" w =
        parseConfigFile vp folder "local" w) := by
  have h : ∀ vp : Viper V, parseConfigFile vp folder "local" w =
      ((w.AddConfigPath vp folder).SetConfigName vp "main").ReadInConfig vp := by
    intro vp
    rw [parseConfigFile_eq]
    split_ifs with h1 h2
    · exact Prod.ext h1.symm rfl
    · exact absurd rfl h2
    · rfl
  refine ⟨h vp, ?_, ?_, ?_, by simp, ?_⟩
  · simp [h, World.ReadInConfig, World.SetConfigName, World.AddConfigPath]
  · simp [h, World.ReadInConfig, World.SetConfigName, World.AddConfigPath]
  · simp [h, World.ReadInConfig, World.SetConfigName, World.AddConfigPath]
  · intro merge
    rw [h, h]
    rfl

/-- Evaluation for C5: with `APP_ENV=stage` and no overlay
document named stage, the base read succeeds, the merge fails, and `Init`
returns the merge error with a nil `Config`. -/
theorem Init_stage_overlay_missing :
    Init memViper "configs" stageWorld =
      ((none, some "config file not found"),
        (Init memViper "configs" stageWorld).2) ∧
    (Init memViper "configs" stageWorld).2.calls.reverse.take 2 =
      [Call.MergeInConfig, Call.SetConfigName "stage"] := by
  constructor
  · rfl
  · decide

end config

/-! ## Theorems: package service -/

namespace service

open primitive cache

variable {C R X : Type}

/-- On a cache hit `GetByDomain` returns the cached record after the lookup
alone. -/
theorem GetByDomain_of_hit (s : SchoolsService C R) (ctx : Context) (d : String)
    (w : World C R X) (v : domain.School)
    (hhit : (s.cache.Get d w.cache).2 = (AnyValue.school v, none)) :
    s.GetByDomain ctx d w =
      (Outcome.returned (v, none),
        { cache := (s.cache.Get d w.cache).1, repo := w.repo, ext := w.ext,
          calls := w.calls ++ [Call.cacheGet d] }) := by
  simp [SchoolsService.GetByDomain, World.cacheGet, hhit]

/-- C6, amended: on a cache hit with a tenant record, when `cache.Get d`
succeeds with a value whose dynamic type is `domain.School`, `GetByDomain d`
returns that record with a nil error.  When `cache.Get d` succeeds with a value
of any other dynamic type, nil included, the assertion `value.(domain.School)`
panics and nothing is returned.  In both cases the only call made is that
`cache.Get`: the repository is not called and its state is unchanged, no
`cache.Set` is made, and the cache state is the one the lookup left (the
initial one whenever the lookup does not modify it). -/
theorem GetByDomain_cache_hit (s : SchoolsService C R) (ctx : Context) (d : String)
    (w : World C R X) (value : AnyValue)
    (hhit : (s.cache.Get d w.cache).2 = (value, none)) :
    (∀ v, value = AnyValue.school v →
      s.GetByDomain ctx d w =
        (Outcome.returned (v, none),
          { cache := (s.cache.Get d w.cache).1, repo := w.repo, ext := w.ext,
            calls := w.calls ++ [Call.cacheGet d] })) ∧
    (value = AnyValue.nil →
      s.GetByDomain ctx d w =
        (Outcome.panicked "interface conversion: interface \x7b\x7d is nil, not domain.School",
          { cache := (s.cache.Get d w.cache).1, repo := w.repo, ext := w.ext,
            calls := w.calls ++ [Call.cacheGet d] })) ∧
    (∀ t, value = AnyValue.other t →
      s.GetByDomain ctx d w =
        (Outcome.panicked
          ("interface conversion: interface \x7b\x7d is " ++ t ++ ", not domain.School"),
          { cache := (s.cache.Get d w.cache).1, repo := w.repo, ext := w.ext,
            calls := w.calls ++ [Call.cacheGet d] })) ∧
    (s.GetByDomain ctx d w).2 =
      { cache := (s.cache.Get d w.cache).1, repo := w.repo, ext := w.ext,
        calls := w.calls ++ [Call.cacheGet d] } ∧
    ((s.cache.Get d w.cache).1 = w.cache → (s.GetByDomain ctx d w).2.cache = w.cache) := by
  have hw : (s.GetByDomain ctx d w).2 =
      { cache := (s.cache.Get d w.cache).1, repo := w.repo, ext := w.ext,
        calls := w.calls ++ [Call.cacheGet d] } := by
    cases value <;> simp [SchoolsService.GetByDomain, World.cacheGet, hhit]
  refine ⟨fun v hv => ?_, fun hv => ?_, fun t hv => ?_, hw, fun hc => by rw [hw]; exact hc⟩
  · subst hv
    exact GetByDomain_of_hit s ctx d w v hhit
  · subst hv
    simp [SchoolsService.GetByDomain, World.cacheGet, hhit]
  · subst hv
    simp [SchoolsService.GetByDomain, World.cacheGet, hhit]

/-- C6 as stated fails: a string is cached under the alias, `cache.Get`
succeeds with it, and `GetByDomain` panics at the type assertion instead of
returning the cached value with a nil error. -/
theorem GetByDomain_mistyped_hit_panics :
    (standin.memCache.Get "school.example.com" standin.mistypedWorld.cache).2 =
      (AnyValue.other "string", none) ∧
    (standin.exampleService.GetByDomain 0 "school.example.com" standin.mistypedWorld).1 =
      Outcome.panicked
        "interface conversion: interface \x7b\x7d is string, not domain.School" ∧
    ∀ v e, (standin.exampleService.GetByDomain 0 "school.example.com"
      standin.mistypedWorld).1 ≠ Outcome.returned (v, e) := by
  refine ⟨by decide, by decide, fun v e h => ?_⟩
  have hp : (standin.exampleService.GetByDomain 0 "school.example.com"
      standin.mistypedWorld).1 =
      Outcome.panicked
        "interface conversion: interface \x7b\x7d is string, not domain.School" := by
    decide
  rw [hp] at h
  exact Outcome.noConfusion h

/-- Witness for C6: the tenant is cached under its alias; `GetByDomain`
returns it and logs the lookup only. -/
theorem GetByDomain_cache_hit_witness :
    (standin.memCache.Get "school.example.com" standin.warmWorld.cache).2 =
      (AnyValue.school standin.exampleSchool, none) ∧
    standin.exampleService.GetByDomain 0 "school.example.com" standin.warmWorld =
      (Outcome.returned (standin.exampleSchool, none),
        { standin.warmWorld with calls := [Call.cacheGet "school.example.com"] }) ∧
    (standin.exampleService.GetByDomain 0 "school.example.com" standin.warmWorld).2.cache =
      standin.warmWorld.cache :=
  ⟨by decide,
    (GetByDomain_cache_hit standin.exampleService 0 "school.example.com" standin.warmWorld
      (AnyValue.school standin.exampleSchool) (by decide)).1 standin.exampleSchool rfl,
    (GetByDomain_cache_hit standin.exampleService 0 "school.example.com" standin.warmWorld
      (AnyValue.school standin.exampleSchool) (by decide)).2.2.2.2 (by decide)⟩

/-- C7: read-through population, for the service `NewSchoolsService` builds
from a repository, a cache and a TTL.  When the lookup of `d` misses and the
repository holds the record `r` under `d`, `GetByDomain d` returns `r` (with
the result of the cache write as its error) and makes exactly three calls: the
lookup, the fetch, and one `cache.Set d r ttl` with the configured TTL.  Over a
cache whose `Set` with that TTL succeeds and whose `Get` then returns the value
just set, the first call returns `(r, nil)`, a subsequent `cache.Get d` returns
`r`, and a second `GetByDomain d` returns `(r, nil)` with the lookup as its
only call, the repository untouched. -/
theorem GetByDomain_read_through (repo : repository.Schools R) (cch : Cache C) (ttl : Int)
    (ctx : Context) (d : String) (w : World C R X) (r : domain.School)
    (hmiss : (cch.Get d w.cache).2.2 ≠ none)
    (hrepo : (repo.GetByDomain ctx d w.repo).2 = (r, none)) :
    let s := NewSchoolsService repo cch ttl
    let stored := cch.Set d (AnyValue.school r) ttl (cch.Get d w.cache).1
    let first := s.GetByDomain ctx d w
    first =
      (Outcome.returned (r, stored.2),
        { cache := stored.1, repo := (repo.GetByDomain ctx d w.repo).1, ext := w.ext,
          calls := w.calls ++
            [Call.cacheGet d, Call.repoGetByDomain ctx d,
             Call.cacheSet d (AnyValue.school r) ttl] }) ∧
    ((∀ k v c, (cch.Set k v ttl c).2 = none ∧
        (cch.Get k (cch.Set k v ttl c).1).2 = (v, none)) →
      first.1 = Outcome.returned (r, none) ∧
      (cch.Get d first.2.cache).2 = (AnyValue.school r, none) ∧
      ∀ ctx2, s.GetByDomain ctx2 d first.2 =
        (Outcome.returned (r, none),
          { cache := (cch.Get d first.2.cache).1, repo := first.2.repo, ext := first.2.ext,
            calls := first.2.calls ++ [Call.cacheGet d] })) := by
  intro s stored first
  have hfirst : first =
      (Outcome.returned (r, stored.2),
        { cache := stored.1, repo := (repo.GetByDomain ctx d w.repo).1, ext := w.ext,
          calls := w.calls ++
            [Call.cacheGet d, Call.repoGetByDomain ctx d,
             Call.cacheSet d (AnyValue.school r) ttl] }) := by
    cases he : (cch.Get d w.cache).2.2 with
    | none => exact absurd he hmiss
    | some e =>
      have hget : (cch.Get d w.cache).2 = ((cch.Get d w.cache).2.1, some e) :=
        Prod.ext rfl he
      simp only [first, stored, s, NewSchoolsService, SchoolsService.GetByDomain,
        World.cacheGet, World.repoGetByDomain, World.cacheSet]
      rw [hget]
      simp [hrepo]
  refine ⟨hfirst, fun hlaw => ?_⟩
  have hset : stored.2 = none := (hlaw d (AnyValue.school r) (cch.Get d w.cache).1).1
  have hback : (cch.Get d stored.1).2 = (AnyValue.school r, none) :=
    (hlaw d (AnyValue.school r) (cch.Get d w.cache).1).2
  have hc : first.2.cache = stored.1 := by rw [hfirst]
  refine ⟨by rw [hfirst, hset], by rw [hc]; exact hback, fun ctx2 => ?_⟩
  exact GetByDomain_of_hit s ctx2 d first.2 r (by rw [hc]; exact hback)

/-- The in-memory cache accepts every write and returns the value last set
for a key. -/
theorem memCache_Get_Set (ttl : Int) (k : String) (v : AnyValue) (c : standin.MemCache) :
    (standin.memCache.Set k v ttl c).2 = none ∧
    (standin.memCache.Get k (standin.memCache.Set k v ttl c).1).2 = (v, none) := by
  simp [standin.memCache, List.lookup]

/-- Witness for C7: empty cache, the tenant persisted under
school.example.com.  The first `GetByDomain` returns the record after a lookup,
a fetch and one write with TTL 3600; a `Get` on the cache then returns the
record, and the second `GetByDomain` returns it without calling the
repository. -/
theorem GetByDomain_read_through_witness :
    standin.exampleService.GetByDomain 0 "school.example.com" standin.coldWorld =
      (Outcome.returned (standin.exampleSchool, none),
        { standin.coldWorld with
          cache := [("school.example.com", AnyValue.school standin.exampleSchool)],
          calls :=
            [Call.cacheGet "school.example.com", Call.repoGetByDomain 0 "school.example.com",
             Call.cacheSet "school.example.com" (AnyValue.school standin.exampleSchool) 3600] }) ∧
    (standin.memCache.Get "school.example.com"
        (standin.exampleService.GetByDomain 0 "school.example.com"
          standin.coldWorld).2.cache).2 =
      (AnyValue.school standin.exampleSchool, none) ∧
    ((standin.exampleService.GetByDomain 0 "school.example.com"
        (standin.exampleService.GetByDomain 0 "school.example.com" standin.coldWorld).2).1 =
      Outcome.returned (standin.exampleSchool, none) ∧
     (standin.exampleService.GetByDomain 0 "school.example.com"
        (standin.exampleService.GetByDomain 0 "school.example.com" standin.coldWorld).2).2.calls =
      [Call.cacheGet "school.example.com", Call.repoGetByDomain 0 "school.example.com",
       Call.cacheSet "school.example.com" (AnyValue.school standin.exampleSchool) 3600,
       Call.cacheGet "school.example.com"]) :=
  ⟨(GetByDomain_read_through standin.memRepo standin.memCache 3600 0 "school.example.com"
      standin.coldWorld standin.exampleSchool (by decide) (by decide)).1,
    ((GetByDomain_read_through standin.memRepo standin.memCache 3600 0 "school.example.com"
      standin.coldWorld standin.exampleSchool (by decide) (by decide)).2
        (fun k v c => memCache_Get_Set 3600 k v c)).2.1,
    by decide⟩

/-- C8: error results of `GetByDomain` on a cache miss.  If the fetch fails
with `e`, the call returns the zero-valued tenant with exactly `e`, and its
only calls are the lookup and the fetch: nothing is written to the cache,
whose state is the one the lookup left.  If
the fetch succeeds with a record and the cache write fails with `e2`, the call
returns that record with exactly `e2`.  A nil error on a miss occurs only when
both the fetch and the cache write succeeded. -/
theorem GetByDomain_miss_errors (s : SchoolsService C R) (ctx : Context) (d : String)
    (w : World C R X) (hmiss : (s.cache.Get d w.cache).2.2 ≠ none) :
    let fetch := s.repo.GetByDomain ctx d w.repo
    let stored := s.cache.Set d (AnyValue.school fetch.2.1) s.ttl (s.cache.Get d w.cache).1
    (∀ e, fetch.2.2 = some e →
      s.GetByDomain ctx d w =
        (Outcome.returned ({}, some e),
          { cache := (s.cache.Get d w.cache).1, repo := fetch.1, ext := w.ext,
            calls := w.calls ++ [Call.cacheGet d, Call.repoGetByDomain ctx d] })) ∧
    (∀ e2, fetch.2.2 = none → stored.2 = some e2 →
      (s.GetByDomain ctx d w).1 = Outcome.returned (fetch.2.1, some e2)) ∧
    (∀ v, (s.GetByDomain ctx d w).1 = Outcome.returned (v, none) →
      fetch.2.2 = none ∧ stored.2 = none) := by
  intro fetch stored
  obtain ⟨e0, he0⟩ : ∃ e0, (s.cache.Get d w.cache).2.2 = some e0 := by
    cases he : (s.cache.Get d w.cache).2.2 with
    | none => exact absurd he hmiss
    | some e => exact ⟨e, rfl⟩
  have hget : (s.cache.Get d w.cache).2 = ((s.cache.Get d w.cache).2.1, some e0) :=
    Prod.ext rfl he0
  have hrun : s.GetByDomain ctx d w =
      match fetch.2.2 with
      | some err =>
        (Outcome.returned ({}, some err),
          { cache := (s.cache.Get d w.cache).1, repo := fetch.1, ext := w.ext,
            calls := w.calls ++ [Call.cacheGet d, Call.repoGetByDomain ctx d] })
      | none =>
        (Outcome.returned (fetch.2.1, stored.2),
          { cache := stored.1, repo := fetch.1, ext := w.ext,
            calls := w.calls ++
              [Call.cacheGet d, Call.repoGetByDomain ctx d,
               Call.cacheSet d (AnyValue.school fetch.2.1) s.ttl] }) := by
    simp only [fetch, stored, SchoolsService.GetByDomain, World.cacheGet, World.repoGetByDomain,
      World.cacheSet]
    rw [hget]
    simp only []
    generalize s.repo.GetByDomain ctx d w.repo = f
    obtain ⟨r1, sc, fe⟩ := f
    cases fe <;> simp
  refine ⟨fun e he => ?_, fun e2 hf hs => ?_, fun v hv => ?_⟩
  · rw [hrun, he]
  · rw [hrun, hf]
    simp [hs]
  · rw [hrun] at hv
    cases hf : fetch.2.2 with
    | none =>
      rw [hf] at hv
      simp only [Outcome.returned.injEq, Prod.mk.injEq] at hv
      exact ⟨rfl, hv.2⟩
    | some e =>
      rw [hf] at hv
      simp at hv

/-- Witness for C8: the cache is unavailable and the tenant is persisted;
`GetByDomain` returns the record together with the error of the cache
write. -/
theorem GetByDomain_miss_errors_witness :
    (standin.degradedService.GetByDomain 0 "school.example.com" standin.coldWorld).1 =
      Outcome.returned (standin.exampleSchool, some "cache unavailable") ∧
    standin.degradedService.GetByDomain 0 "unknown.example.com" standin.coldWorld =
      (Outcome.returned ({}, some "school not found"),
        { standin.coldWorld with
          calls := [Call.cacheGet "unknown.example.com",
                    Call.repoGetByDomain 0 "unknown.example.com"] }) :=
  ⟨(GetByDomain_miss_errors standin.degradedService 0 "school.example.com" standin.coldWorld
      (by decide)).2.1 "cache unavailable" (by decide) (by decide),
    (GetByDomain_miss_errors standin.degradedService 0 "unknown.example.com" standin.coldWorld
      (by decide)).1 "school not found" (by decide)⟩

/-- C9: two-level merge-patch conversion.  `toContactInfo` and `toPages` map
an absent group to an absent group and a present group to a present group
whose every field equals the input field: a set field carries the input value,
an unset field is unset.  `UpdateSettings` makes one repository call, handing
over the sparse update built from these.  For the patch that sets only the
contact phone to 999 the update carries a contact-info group with phone 999
and no other field, the email included; for a patch without the group it
carries no contact-info group.  A repository that applies only the set fields
to the tenant with email a@x.com and phone 555 then holds email a@x.com and
phone 999 in the first case and both fields as they were in the second. -/
theorem UpdateSettings_merge_patch (s : SchoolsService C R) (ctx : Context)
    (schoolId : ObjectID) (w : World C R X) :
    (toContactInfo none = none ∧
     ∀ ci : UpdateSchoolSettingsContactInfo, ∃ out,
      toContactInfo (some ci) = some out ∧
      out.Address = ci.Address ∧ out.BusinessName = ci.BusinessName ∧
      out.Email = ci.Email ∧ out.Phone = ci.Phone ∧
      out.RegistrationNumber = ci.RegistrationNumber) ∧
    (toPages none = none ∧
     ∀ pg : UpdateSchoolSettingsPages, ∃ out,
      toPages (some pg) = some out ∧
      out.Confidential = pg.Confidential ∧ out.NewsletterConsent = pg.NewsletterConsent ∧
      out.ServiceAgreement = pg.ServiceAgreement) ∧
    (∀ inp : UpdateSchoolSettingsInput,
      s.UpdateSettings ctx schoolId inp w =
        ((s.repo.UpdateSettings ctx
            { SchoolID := schoolId, Name := inp.Name, Color := inp.Color,
              Domains := inp.Domains, Email := inp.Email,
              ContactInfo := toContactInfo inp.ContactInfo, Pages := toPages inp.Pages,
              ShowPaymentImages := inp.ShowPaymentImages,
              GoogleAnalyticsCode := inp.GoogleAnalyticsCode, LogoURL := inp.LogoURL }
            w.repo).2,
          { cache := w.cache,
            repo := (s.repo.UpdateSettings ctx (toRepositoryInput schoolId inp) w.repo).1,
            ext := w.ext,
            calls := w.calls ++ [Call.repoUpdateSettings ctx (toRepositoryInput schoolId inp)] })) ∧
    ((toRepositoryInput schoolId standin.phonePatch).ContactInfo =
        some { BusinessName := none, RegistrationNumber := none, Address := none,
               Email := none, Phone := some "999" } ∧
     ∀ inp : UpdateSchoolSettingsInput, inp.ContactInfo = none →
      (toRepositoryInput schoolId inp).ContactInfo = none) ∧
    ((standin.exampleService.UpdateSettings 0 standin.exampleSchool.ID standin.phonePatch
        standin.coldWorld).2.repo =
      [{ standin.exampleSchool with
         Settings := { ContactInfo := { Email := "a@x.com", Phone := "999" } } }] ∧
     (standin.exampleService.UpdateSettings 0 standin.exampleSchool.ID standin.colorPatch
        standin.coldWorld).2.repo =
      [{ standin.exampleSchool with
         Settings := { Color := "#336699",
                       ContactInfo := { Email := "a@x.com", Phone := "555" } } }]) := by
  refine ⟨⟨rfl, fun ci => ?_⟩, ⟨rfl, fun pg => ?_⟩, fun inp => rfl, ⟨rfl, ?_⟩,
    by decide, by decide⟩
  · obtain ⟨bn, rn, ad, em, ph⟩ := ci
    cases bn <;> cases rn <;> cases ad <;> cases em <;> cases ph <;> simp [toContactInfo]
  · obtain ⟨cf, sa, nc⟩ := pg
    cases cf <;> cases sa <;> cases nc <;> simp [toPages]
  · intro inp hinp
    simp [toRepositoryInput, hinp, toContactInfo]

/-- C10: `ConnectFondy` is fail-closed.  It draws a fresh identifier and asks
the gateway, through a client built from the input credentials, for a payment
link for the test order of amount 1000 in currency USD.  If that call returns
an error `e`, `ConnectFondy` returns exactly `e`, and its only calls are these
two: `SetFondyCredentials` is not called and the repository state is
unchanged.  If it succeeds, `ConnectFondy` makes exactly one more call,
`SetFondyCredentials` for the input's school with the input's merchant id and
password and `Connected` true, and returns the result of that call. -/
theorem ConnectFondy_fail_closed (s : SchoolsService C R) (x : External X) (ctx : Context)
    (input : ConnectFondyInput) (w : World C R X) :
    let client : fondy.Client :=
      { merchantId := input.MerchantID, merchantPassword := input.MerchantPassword }
    let order : payment.GeneratePaymentLinkInput :=
      { OrderId := (x.NewObjectID w.ext).2.hex, Amount := 1000, Currency := "USD",
        OrderDesc := "CREATLY - TESTING FONDY CREDENTIALS" }
    let verify := x.GeneratePaymentLink client order (x.NewObjectID w.ext).1
    let creds : domain.Fondy :=
      { MerchantId := input.MerchantID, MerchantPassword := input.MerchantPassword,
        Connected := true }
    (∀ e, verify.2.2 = some e →
      s.ConnectFondy x ctx input w =
        (some e,
          { cache := w.cache, repo := w.repo, ext := verify.1,
            calls := w.calls ++ [Call.newObjectID, Call.generatePaymentLink client order] })) ∧
    (verify.2.2 = none →
      s.ConnectFondy x ctx input w =
        ((s.repo.SetFondyCredentials ctx input.SchoolID creds w.repo).2,
          { cache := w.cache,
            repo := (s.repo.SetFondyCredentials ctx input.SchoolID creds w.repo).1,
            ext := verify.1,
            calls := w.calls ++
              [Call.newObjectID, Call.generatePaymentLink client order,
               Call.repoSetFondyCredentials ctx input.SchoolID creds] })) := by
  intro client order verify creds
  have hv : verify = x.GeneratePaymentLink client order (x.NewObjectID w.ext).1 := rfl
  constructor
  · intro e he
    simp only [SchoolsService.ConnectFondy, World.newObjectID, World.generatePaymentLink,
      fondy.NewFondyClient, ObjectID.Hex]
    have hpair : x.GeneratePaymentLink client order (x.NewObjectID w.ext).1 =
        (verify.1, (verify.2.1, some e)) := by
      rw [← hv, ← he]
    simp only [client, order] at hpair
    simp [hpair, client, order]
  · intro he
    simp only [SchoolsService.ConnectFondy, World.newObjectID, World.generatePaymentLink,
      World.repoSetFondyCredentials, fondy.NewFondyClient, ObjectID.Hex]
    have hpair : x.GeneratePaymentLink client order (x.NewObjectID w.ext).1 =
        (verify.1, (verify.2.1, none)) := by
      rw [← hv, ← he]
    simp only [client, order] at hpair
    simp [hpair, client, order, creds]

/-- Evaluation of `ConnectFondy` on the stand-ins: credentials the gateway
rejects leave the persisted tenant as it was, credentials it accepts are
persisted with `Connected` true. -/
theorem ConnectFondy_examples :
    standin.exampleService.ConnectFondy standin.memGateway 0
        { SchoolID := standin.exampleSchool.ID, MerchantID := "merchant-9",
          MerchantPassword := "wrong" } standin.coldWorld =
      (some "invalid merchant credentials",
        { standin.coldWorld with
          ext := { standin.coldWorld.ext with ids := [] },
          calls :=
            [Call.newObjectID,
             Call.generatePaymentLink ⟨"merchant-9", "wrong"⟩
               { OrderId := "64b7f1a2c3d4e5f601234567", Amount := 1000, Currency := "USD",
                 OrderDesc := "CREATLY - TESTING FONDY CREDENTIALS" }] }) ∧
    (standin.exampleService.ConnectFondy standin.memGateway 0
        { SchoolID := standin.exampleSchool.ID, MerchantID := "merchant-1",
          MerchantPassword := "secret-1" } standin.coldWorld).2.repo =
      [{ standin.exampleSchool with
         Settings :=
           { ContactInfo := { Email := "a@x.com", Phone := "555" },
             Fondy := { MerchantId := "merchant-1", MerchantPassword := "secret-1",
                        Connected := true } } }] := by
  constructor
  · rfl
  · decide

end service
